import Mathlib

/-!
Verification of the e-learning frontend validation subsystem.

This file gives a shallow embedding of the validation core of the
repository: the cross-source merge and bucketing of validation errors
(CourseContext.validateCourse), the three entity validators and the
ValidationService (categorization, severity escalation, field dispatch),
and the two course transforms (transformCourseForBackend,
transformCourseForExport), together with theorems settling the frozen
claims about them.

Modelling conventions, used throughout:
- JavaScript objects become Lean structures; a property that may be
  absent or `undefined` becomes an `Option` field (`none` = absent).
- `a ?? b` becomes `Option.orElse` / `Option.getD`; `a || b` on strings
  becomes the `jsOr*` helpers below (the empty string is falsy).
- Arrays are always truthy in JavaScript (including `[]`), so
  `xs || ys` on an optional array field is `Option.orElse`, not `getD`.
- `Array.prototype.sort` with a numeric comparator is a stable sort
  (ES2019); it is embedded as `List.insertionSort` with a `≤` key
  relation, which produces exactly the stable ascending order.
- Code that can throw a TypeError (property access on `undefined`)
  is embedded in `Except String`; `.error` marks a thrown exception.
- `Date.now()` / `Math.random()` / `new Date().toISOString()` are
  abstracted as explicit parameters (an id generator and a timestamp);
  no claim depends on their values.
-/

/-! ## JavaScript string semantics helpers -/

/-- Embeds `String.prototype.trim`: strip whitespace from both ends.
Implemented over the character list so that it evaluates by `decide`. -/
def jsTrim (s : String) : String :=
  ⟨((s.data.dropWhile Char.isWhitespace).reverse.dropWhile Char.isWhitespace).reverse⟩

/-- Embeds `String.prototype.includes`: substring containment test. -/
def jsIncludesAux (pat : List Char) : List Char → Bool
  | [] => pat.isEmpty
  | c :: cs => pat.isPrefixOf (c :: cs) || jsIncludesAux pat cs

/-- Embeds `s.includes(sub)` for strings. -/
def jsIncludes (s sub : String) : Bool := jsIncludesAux sub.data s.data

/-- Embeds `s.startsWith(pre)` / field-path prefix test. -/
def jsStartsWith (s pre : String) : Bool := pre.data.isPrefixOf s.data

/-- Split a character list on the dot character (for the semver test). -/
def splitDots : List Char → List (List Char)
  | [] => [[]]
  | c :: cs =>
      if c = '.' then [] :: splitDots cs
      else
        match splitDots cs with
        | [] => [[c]]
        | h :: t => (c :: h) :: t

/-- A nonempty run of decimal digits. -/
def isDigits (l : List Char) : Bool := !l.isEmpty && l.all Char.isDigit

/-- The regular expression test `/^\d+\.\d+\.\d+$/.test(s)` from
`transformCourseForBackend`. -/
def isSemVer (s : String) : Bool :=
  match splitDots s.data with
  | [a, b, c] => isDigits a && isDigits b && isDigits c
  | _ => false

/-! ## JavaScript truthiness helpers -/

/-- Embeds `a || b` where `a` is an optional string and `b` a string:
`undefined` and `""` are falsy. -/
def jsOrStr (a : Option String) (b : String) : String :=
  match a with
  | some s => if s = "" then b else s
  | none => b

/-- Embeds `a || b` where both sides are optional strings. -/
def jsOrStrOpt (a b : Option String) : Option String :=
  match a with
  | some s => if s = "" then b else some s
  | none => b

/-- Embeds `a || undefined` for an optional string: normalizes `""` to absent. -/
def jsOrUndef (a : Option String) : Option String :=
  match a with
  | some s => if s = "" then none else some s
  | none => none

/-- Truthiness of an optional string (`undefined` and `""` are falsy). -/
def jsTruthyStr (a : Option String) : Bool :=
  match a with
  | some s => s != ""
  | none => false

/-- A string interpolation `${x}` of a possibly-`undefined` value renders
`undefined` as the text `"undefined"`. -/
def jsShow (a : Option String) : String := a.getD "undefined"

/-- Embeds `Array.prototype.findIndex`: index of the first match, `-1` if none. -/
def jsFindIndexAux (p : α → Bool) (i : Int) : List α → Int
  | [] => -1
  | x :: xs => if p x then i else jsFindIndexAux p (i + 1) xs

/-- Embeds `xs.findIndex(p)` with the JavaScript `-1` sentinel. -/
def jsFindIndex (p : α → Bool) (xs : List α) : Int := jsFindIndexAux p 0 xs

theorem jsOrUndef_idem (a : Option String) : jsOrUndef (jsOrUndef a) = jsOrUndef a := by
  cases a with
  | none => rfl
  | some s =>
      by_cases h : s = "" <;> simp [jsOrUndef, h]

theorem jsOrStrOpt_assoc_absorb (a b : Option String) :
    jsOrStrOpt (jsOrStrOpt a b) b = jsOrStrOpt a b := by
  cases a with
  | none =>
      cases b with
      | none => rfl
      | some s => by_cases h : s = "" <;> simp [jsOrStrOpt, h]
  | some s =>
      by_cases h : s = "" <;> cases b with
      | none => simp [jsOrStrOpt, h]
      | some u => by_cases hu : u = "" <;> simp [jsOrStrOpt, h, hu]

theorem jsOrStr_ne_empty (a : Option String) (b : String) (hb : b ≠ "") :
    jsOrStr a b ≠ "" := by
  cases a with
  | none => simpa [jsOrStr] using hb
  | some s =>
      by_cases h : s = "" <;> simp [jsOrStr, h, hb]

/-! ## Cross-source merge and bucketing

Embedding of the merge step of `validateCourse` in the course context
(the hook that combines `validateCourseFull` output with the result of
`apiService.validateCourse`):

```js
const merged = [...clientValidation.errors, ...serverValidation.errors];
const structural = []; const business = []; const other = [];
merged.forEach((err) => {
  const t = err.type;
  if (t === "value_error" || t === "type_error") structural.push(err);
  else if (t === "business_rule_error") business.push(err);
  else other.push(err);
});
const ordered = [...structural, ...business, ...other];
```
-/

/-- A locally-produced validation error (`utils/validation.ts` shape):
field and message; no `type` tag. A `level` may ride along from display
code but is never read by the merge. -/
structure LocalError where
  field : String := ""
  message : String := ""
  level : Option String := none
deriving DecidableEq, Repr

/-- A remote (backend) validation error: field, message and the optional
`type` tag attached by the 422 handler in `apiService.validateCourse`. -/
structure RemoteError where
  field : String := ""
  message : String := ""
  type : Option String := none
deriving DecidableEq, Repr

/-- An element of the merged error array. Local errors carry no `type`
tag (reading `err.type` on them yields `undefined`). -/
structure MergedError where
  field : String := ""
  message : String := ""
  level : Option String := none
  type : Option String := none
deriving DecidableEq, Repr

/-- Injection of a local error into the merged array. -/
def MergedError.ofLocal (e : LocalError) : MergedError :=
  { field := e.field, message := e.message, level := e.level, type := none }

/-- Injection of a remote error into the merged array. -/
def MergedError.ofRemote (e : RemoteError) : MergedError :=
  { field := e.field, message := e.message, level := none, type := e.type }

/-- Embeds `t === "value_error" || t === "type_error"`. -/
def isStructuralTag (e : MergedError) : Bool :=
  e.type == some "value_error" || e.type == some "type_error"

/-- Embeds `t === "business_rule_error"`. -/
def isBusinessTag (e : MergedError) : Bool :=
  e.type == some "business_rule_error"

/-- The `forEach` loop pushing each merged error into one of the three
bucket arrays, in merged order. -/
def bucketize : List MergedError → List MergedError × List MergedError × List MergedError
  | [] => ([], [], [])
  | e :: rest =>
      let (s, b, o) := bucketize rest
      if isStructuralTag e then (e :: s, b, o)
      else if isBusinessTag e then (s, e :: b, o)
      else (s, b, e :: o)

/-- The merge-and-bucket step of the course context `validateCourse`:
concatenate client then server errors, bucket by the `type` tag, and
emit structural ++ business ++ other. -/
def bucketMerge (locals : List LocalError) (remotes : List RemoteError) : List MergedError :=
  let merged := locals.map MergedError.ofLocal ++ remotes.map MergedError.ofRemote
  let (structural, business, other) := bucketize merged
  structural ++ business ++ other

theorem bucketize_eq_filters (l : List MergedError) :
    bucketize l =
      (l.filter isStructuralTag,
       l.filter (fun e => !isStructuralTag e && isBusinessTag e),
       l.filter (fun e => !isStructuralTag e && !isBusinessTag e)) := by
  induction l with
  | nil => rfl
  | cons e rest ih =>
      by_cases hs : isStructuralTag e
      · simp [bucketize, ih, hs, List.filter_cons]
      · by_cases hb : isBusinessTag e
        · simp [bucketize, ih, hs, hb, List.filter_cons]
        · simp [bucketize, ih, hs, hb, List.filter_cons]

theorem bucketize_perm (l : List MergedError) :
    ((bucketize l).1 ++ (bucketize l).2.1 ++ (bucketize l).2.2).Perm l := by
  induction l with
  | nil => simp [bucketize]
  | cons e rest ih =>
      rcases h : bucketize rest with ⟨s, b, o⟩
      rw [h] at ih
      simp only at ih
      by_cases hs : isStructuralTag e
      · simp only [bucketize, h, hs, if_pos]
        exact List.Perm.cons e ih
      · by_cases hb : isBusinessTag e
        · simp only [bucketize, h, hs, hb, Bool.false_eq_true, if_false, if_true]
          have h1 : s ++ (e :: b) ++ o = s ++ e :: (b ++ o) := by simp
          have h2 : (s ++ e :: (b ++ o)).Perm (e :: (s ++ (b ++ o))) :=
            List.perm_middle
          rw [h1]
          refine h2.trans ?_
          refine List.Perm.cons e ?_
          simpa [List.append_assoc] using ih
        · simp only [bucketize, h, hs, hb, Bool.false_eq_true, if_false]
          have h1 : s ++ b ++ (e :: o) = (s ++ b) ++ e :: o := by simp
          have h2 : ((s ++ b) ++ e :: o).Perm (e :: ((s ++ b) ++ o)) :=
            List.perm_middle
          rw [h1]
          refine h2.trans ?_
          exact List.Perm.cons e ih

theorem isStructuralTag_false_of_business (e : MergedError) (h : isBusinessTag e = true) :
    isStructuralTag e = false := by
  have ht : e.type = some "business_rule_error" := by
    have := of_decide_eq_true (by simpa [isBusinessTag] using h)
    simpa using this
  simp [isStructuralTag, ht]

/-- C2: the local+remote merge classifies every combined error by its
`type` tag (`value_error`/`type_error` structural, `business_rule_error`
business, everything else — including untagged local errors — other) and
returns structural ++ business ++ other; on the spec scenario the order
is [Beta, Alpha, Zeta]. -/
theorem bucketMerge_classification :
    (∀ (locals : List LocalError) (remotes : List RemoteError),
      bucketMerge locals remotes =
        (locals.map MergedError.ofLocal ++ remotes.map MergedError.ofRemote).filter
            isStructuralTag
          ++ (locals.map MergedError.ofLocal ++ remotes.map MergedError.ofRemote).filter
            isBusinessTag
          ++ (locals.map MergedError.ofLocal ++ remotes.map MergedError.ofRemote).filter
            (fun e => !isStructuralTag e && !isBusinessTag e))
    ∧ (∀ e : LocalError, (MergedError.ofLocal e).type = none)
    ∧ ((bucketMerge [{ level := some "warning", message := "Zeta" }]
          [{ type := some "value_error", message := "Beta" },
           { type := some "business_rule_error", message := "Alpha" }]).map
          MergedError.message
        = ["Beta", "Alpha", "Zeta"]) := by
  refine ⟨?_, fun e => rfl, by decide⟩
  intro locals remotes
  have hf := bucketize_eq_filters
    (locals.map MergedError.ofLocal ++ remotes.map MergedError.ofRemote)
  have hbiz :
      (locals.map MergedError.ofLocal ++ remotes.map MergedError.ofRemote).filter
          (fun e => !isStructuralTag e && isBusinessTag e)
        = (locals.map MergedError.ofLocal ++ remotes.map MergedError.ofRemote).filter
          isBusinessTag := by
    refine List.filter_congr ?_
    intro e _
    by_cases hb : isBusinessTag e
    · simp [hb, isStructuralTag_false_of_business e hb]
    · simp [hb]
  simp only [bucketMerge, hf, hbiz]

/-- C3 counterexample: the merge performs no deduplication by
field+message — the same (field, message) pair occurring both locally
and remotely appears twice in the merged display list. -/
theorem bucketMerge_no_dedup_counterexample :
    ((bucketMerge
        [{ field := "title", message := "Course title is required" }]
        [{ field := "title", message := "Course title is required" }]).countP
      (fun e => e.field == "title" && e.message == "Course title is required"))
      = 2 := by decide

/-- C3 (amended): the merged list keeps every local and remote error —
it is a permutation of the concatenation of the two sources (so its
length is the sum of theirs), and duplicate (field, message) pairs are
preserved rather than deduplicated. -/
theorem bucketMerge_keeps_all_errors :
    ∀ (locals : List LocalError) (remotes : List RemoteError),
      (bucketMerge locals remotes).Perm
          (locals.map MergedError.ofLocal ++ remotes.map MergedError.ofRemote)
        ∧ (bucketMerge locals remotes).length = locals.length + remotes.length := by
  intro locals remotes
  have hp :
      (bucketMerge locals remotes).Perm
        (locals.map MergedError.ofLocal ++ remotes.map MergedError.ofRemote) := by
    have := bucketize_perm
      (locals.map MergedError.ofLocal ++ remotes.map MergedError.ofRemote)
    simpa [bucketMerge] using this
  refine ⟨hp, ?_⟩
  have := hp.length_eq
  simpa using this

/-! ## Entity validators and the ValidationService

Embedding of `types/comprehensive.ts` (the `Course`/`Page` shape seen by
the validators), `validators/CourseValidator.ts`,
`validators/TemplateValidator.ts`, `validators/NavigationValidator.ts`
and `ValidationService.ts`.

Scalar fields that the code only reads under a truthiness guard are
typed `Option String`; the fields that the code subjects to a
`typeof`/`Array.isArray` check are given the `JsPrim` type so that the
type-mismatch branches stay live. `page.content` is `Option PageContent`
because the template validator dereferences it without a guard — that
access is embedded through `Except`, `.error` marking a thrown
TypeError. -/

namespace Comprehensive

/-- A primitive JavaScript value, for fields the code type-tests. -/
inductive JsPrim where
  | pb (b : Bool)
  | ps (s : String)
  | pn (n : Int)
deriving DecidableEq, Repr

/-- JavaScript truthiness of a primitive. -/
def JsPrim.truthy : JsPrim → Bool
  | .pb b => b
  | .ps s => s != ""
  | .pn n => n != 0

/-- String coercion as performed by template literals. -/
def JsPrim.display : JsPrim → String
  | .pb b => if b then "true" else "false"
  | .ps s => s
  | .pn n => toString n

/-- Truthiness of a possibly-absent primitive. -/
def jsTruthyPrim (o : Option JsPrim) : Bool :=
  match o with
  | some v => v.truthy
  | none => false

/-- Embeds `typeof x === "string"`. -/
def isStringPrim (o : Option JsPrim) : Bool :=
  match o with
  | some (.ps _) => true
  | _ => false

/-- Embeds `typeof x === "boolean"`. -/
def isBoolPrim (o : Option JsPrim) : Bool :=
  match o with
  | some (.pb _) => true
  | _ => false

/-- The structured `context` object attached by `createError`. -/
structure ErrorContext where
  suggestion : Option String := none
  currentLength : Option Int := none
  maxLength : Option Int := none
deriving DecidableEq, Repr

/-- Embeds `ValidationError` of `types/comprehensive.ts`. -/
structure ValidationError where
  id : String := ""
  field : String := ""
  category : String := ""
  message : String := ""
  level : String := ""
  context : Option ErrorContext := none
deriving DecidableEq, Repr

/-- Embeds `ValidationResult` of `types/comprehensive.ts`. -/
structure ValidationResult where
  valid : Bool
  errors : List ValidationError
  timestamp : String
deriving DecidableEq, Repr

/-- The free-form `content` payload of a page (the properties the
validators read). -/
structure PageContent where
  question : Option JsPrim := none
  options : Option (List JsPrim) := none
  correctAnswer : Option JsPrim := none
  body : Option String := none
  title : Option JsPrim := none
deriving DecidableEq, Repr

/-- A branching condition on a page. -/
structure Condition where
  targetPageId : Option String := none
deriving DecidableEq, Repr

/-- Embeds `Page` of `types/comprehensive.ts`. -/
structure Page where
  id : Option String := none
  templateType : Option String := none
  type : Option String := none
  title : Option String := none
  content : Option PageContent := none
  order : Option Int := none
  conditions : Option (List Condition) := none
deriving DecidableEq, Repr

/-- Embeds `NavigationSettings` of `types/comprehensive.ts` (the fields the
navigation validator reads; type-tested fields are `JsPrim`). -/
structure NavigationSettings where
  mode : Option JsPrim := none
  allowBack : Option JsPrim := none
  requireCompletion : Option JsPrim := none
deriving DecidableEq, Repr

/-- Embeds `CourseSettings` of `types/comprehensive.ts`. -/
structure CourseSettings where
  theme : Option String := none
  autoplay : Option Bool := none
  duration : Option Int := none
  navigation : Option NavigationSettings := none
deriving DecidableEq, Repr

/-- Embeds `Course` of `types/comprehensive.ts` (the fields the validators read). -/
structure Course where
  courseId : Option String := none
  title : Option String := none
  description : Option String := none
  author : Option String := none
  pages : Option (List Page) := none
  settings : Option CourseSettings := none
deriving DecidableEq, Repr

/-- Embeds `t(key, fallback)` from `i18n/strings.ts`: in the shipped `en`
locale the keys used by the validators map to exactly the fallback
text, so the lookup returns the fallback. -/
def t (_key fallback : String) : String := fallback

/-- Emit a singleton error list when a condition holds (one sequential
`errors.push` guarded by an `if`). -/
def optErr (cond : Bool) (e : ValidationError) : List ValidationError :=
  if cond then [e] else []

/-- Embeds `CourseValidator.createError`. -/
def createError (field category message : String)
    (context : Option ErrorContext := none) : ValidationError :=
  { id := "", field := field, category := category, message := message,
    level := "error", context := context }

/-- Embeds `CourseValidator.validate`. Every access is truthiness-guarded, so
this method is total. -/
def courseValidatorValidate (ts : String) (course : Course) : ValidationResult :=
  let errors : List ValidationError :=
    optErr (!jsTruthyStr course.title || (jsTrim (course.title.getD "")).length == 0)
      (createError "course.title" "schema"
        (t "validate.error.title.required" "Course title is required")
        (some { suggestion := some "Add a descriptive title for your course" }))
    ++ optErr (jsTruthyStr course.title && (course.title.getD "").length > 200)
      (createError "course.title" "business"
        (t "validate.error.title.length" "Title must be 200 characters or less")
        (some { currentLength := some ((course.title.getD "").length : Int),
                maxLength := some 200 }))
    ++ optErr (!jsTruthyStr course.author || (jsTrim (course.author.getD "")).length == 0)
      (createError "course.author" "schema" "Course author is required"
        (some { suggestion := some "Add the course author name" }))
    ++ optErr (jsTruthyStr course.author && (course.author.getD "").length > 100)
      (createError "course.author" "business"
        "Author name must be 100 characters or less"
        (some { currentLength := some ((course.author.getD "").length : Int),
                maxLength := some 100 }))
    ++ optErr (jsTruthyStr course.description && (course.description.getD "").length > 500)
      (createError "course.description" "business"
        "Description must be 500 characters or less"
        (some { currentLength := some ((course.description.getD "").length : Int),
                maxLength := some 500 }))
    ++ optErr (course.pages.isNone || (course.pages.getD []).isEmpty)
      (createError "course.pages" "business"
        (t "validate.error.page.required" "At least one page is required")
        (some { suggestion := some "Add a page from templates" }))
  { valid := errors.length == 0, errors := errors, timestamp := ts }

/-- Embeds `CourseValidator.validateField`. -/
def courseValidatorValidateField (ts : String) (_course : Course)
    (fieldPath : String) (value : Option String) : ValidationResult :=
  let errors : List ValidationError :=
    if fieldPath == "title" then
      if !jsTruthyStr value || (jsTrim (value.getD "")).length == 0 then
        [createError fieldPath "schema" "Title is required"]
      else if (value.getD "").length > 200 then
        [createError fieldPath "business" "Title too long"]
      else []
    else if fieldPath == "author" then
      if !jsTruthyStr value || (jsTrim (value.getD "")).length == 0 then
        [createError fieldPath "schema" "Author is required"]
      else if (value.getD "").length > 100 then
        [createError fieldPath "business" "Author name too long"]
      else []
    else if fieldPath == "description" then
      if jsTruthyStr value && (value.getD "").length > 500 then
        [createError fieldPath "business" "Description too long"]
      else []
    else []
  { valid := errors.length == 0, errors := errors, timestamp := ts }

/-- Embeds `CourseValidator.supportsField`. -/
def courseValidatorSupportsField (fieldPath : String) : Bool :=
  ["title", "description", "author", "version"].contains fieldPath

/-- Embeds `TemplateValidator.normalizeTemplateType`: runtime `templateType`
wins over static `type`; both falsy yields `undefined`. -/
def normalizeTemplateType (page : Page) : Option String :=
  if jsTruthyStr page.templateType then page.templateType
  else if jsTruthyStr page.type then page.type
  else none

/-- The TypeError raised by a property access on `undefined`. -/
def typeErrorMsg : String := "TypeError: cannot read properties of undefined"

/-- Embeds `TemplateValidator.validateMCQ`: dereferences `page.content`
without a guard, so a missing content payload throws. -/
def validateMCQ (page : Page) (index : Nat) : Except String (List ValidationError) :=
  match page.content with
  | none => .error typeErrorMsg
  | some mcqData =>
      .ok
        (optErr (!jsTruthyPrim mcqData.question || !isStringPrim mcqData.question)
          { id := "", field := "pages[" ++ toString index ++ "].content.question",
            category := "business",
            message := "MCQ page " ++ toString (index + 1) ++ " must have a question",
            level := "error" }
        ++ optErr (mcqData.options.isNone || (mcqData.options.getD []).length < 2)
          { id := "", field := "pages[" ++ toString index ++ "].content.options",
            category := "business",
            message := "MCQ page " ++ toString (index + 1) ++ " must have at least 2 options",
            level := "error" }
        ++ optErr mcqData.correctAnswer.isNone
          { id := "", field := "pages[" ++ toString index ++ "].content.correctAnswer",
            category := "business",
            message := "MCQ page " ++ toString (index + 1) ++ " must have a correct answer",
            level := "error" })

/-- Embeds `TemplateValidator.validateContentText`: also dereferences
`page.content` without a guard. -/
def validateContentText (page : Page) (index : Nat) :
    Except String (List ValidationError) :=
  match page.content with
  | none => .error typeErrorMsg
  | some content =>
      .ok
        (optErr (!jsTruthyStr content.body || (jsTrim (content.body.getD "")).length == 0)
          { id := "", field := "pages[" ++ toString index ++ "].content.body",
            category := "business",
            message := "Content page " ++ toString (index + 1) ++ " must have body text",
            level := "warning" })

/-- Embeds `TemplateValidator.validateWelcome`: also dereferences
`page.content` without a guard. -/
def validateWelcome (page : Page) (index : Nat) :
    Except String (List ValidationError) :=
  match page.content with
  | none => .error typeErrorMsg
  | some content =>
      .ok
        (optErr (!jsTruthyPrim content.title)
          { id := "", field := "pages[" ++ toString index ++ "].content.title",
            category := "business",
            message := "Welcome page must have a title",
            level := "error" })

/-- One step of the `course.pages?.forEach` loop in
`TemplateValidator.validate`: errors for the page at `index`. -/
def templatePageErrors (page : Page) (index : Nat) :
    Except String (List ValidationError) :=
  match normalizeTemplateType page with
  | none =>
      .ok
        [{ id := "", field := "pages[" ++ toString index ++ "].templateType",
           category := "schema",
           message := "Page " ++ toString (index + 1) ++ " missing template type",
           level := "error" }]
  | some templateType =>
      if templateType == "mcq" then validateMCQ page index
      else if templateType == "content-text" then validateContentText page index
      else if templateType == "welcome" then validateWelcome page index
      else
        .ok
          [{ id := "", field := "pages[" ++ toString index ++ "].templateType",
             category := "business",
             message := "Unknown template type: " ++ templateType,
             level := "warning" }]

/-- The `forEach` over pages; an exception aborts the whole pass. -/
def templatePagesLoop (index : Nat) : List Page → Except String (List ValidationError)
  | [] => .ok []
  | p :: ps => do
      let here ← templatePageErrors p index
      let rest ← templatePagesLoop (index + 1) ps
      return here ++ rest

/-- Embeds `TemplateValidator.validate`. -/
def templateValidatorValidate (ts : String) (course : Course) :
    Except String ValidationResult := do
  let errors ← templatePagesLoop 0 (course.pages.getD [])
  return { valid := errors.length == 0, errors := errors, timestamp := ts }

/-- Embeds `TemplateValidator.supportsField`. -/
def templateValidatorSupportsField (fieldPath : String) : Bool :=
  jsStartsWith fieldPath "pages["

/-- Embeds `NavigationValidator.validateNavigationSettings`. -/
def validateNavigationSettings (navigation : NavigationSettings) : List ValidationError :=
  optErr (jsTruthyPrim navigation.mode
      && !(match navigation.mode with
           | some (.ps s) => (["linear", "free", "branching"] : List String).contains s
           | _ => false))
    { id := "", field := "settings.navigation.mode", category := "business",
      message := "Invalid navigation mode: "
        ++ (match navigation.mode with | some v => v.display | none => "undefined")
        ++ ". Must be linear, free, or branching",
      level := "error" }
  ++ optErr (navigation.requireCompletion.isSome && !isBoolPrim navigation.requireCompletion)
    { id := "", field := "settings.navigation.requireCompletion", category := "schema",
      message := "requireCompletion must be a boolean", level := "error" }
  ++ optErr (navigation.allowBack.isSome && !isBoolPrim navigation.allowBack)
    { id := "", field := "settings.navigation.allowBack", category := "schema",
      message := "allowBack must be a boolean", level := "error" }

/-- Duplicate-page-id pass of `validatePageFlow` (a `Set` of already
seen ids, one error per occurrence after the first). -/
def dupIdPass (seen : List String) (index : Nat) : List Page → List ValidationError
  | [] => []
  | p :: ps =>
      if jsTruthyStr p.id then
        let s := p.id.getD ""
        (if seen.contains s then
          [{ id := "", field := "pages[" ++ toString index ++ "].id",
             category := "business", message := "Duplicate page ID: " ++ s,
             level := "error" }]
         else []) ++ dupIdPass (s :: seen) (index + 1) ps
      else dupIdPass seen (index + 1) ps

/-- Order-mismatch pass of `validatePageFlow`. -/
def orderPass (index : Nat) : List Page → List ValidationError
  | [] => []
  | p :: ps =>
      optErr (match p.order with
              | some o => o != (index : Int)
              | none => false)
        { id := "", field := "pages[" ++ toString index ++ "].order",
          category := "business",
          message := "Page order mismatch: expected " ++ toString index
            ++ ", got " ++ (match p.order with
                            | some o => toString o
                            | none => "undefined"),
          level := "warning" }
      ++ orderPass (index + 1) ps

/-- Branching-condition pass of `validatePageFlow`. -/
def conditionErrors (index : Nat) (condIndex : Nat) : List Condition → List ValidationError
  | [] => []
  | c :: cs =>
      optErr (!jsTruthyStr c.targetPageId)
        { id := "",
          field := "pages[" ++ toString index ++ "].conditions["
            ++ toString condIndex ++ "].targetPageId",
          category := "business",
          message := "Branching condition missing target page ID",
          level := "error" }
      ++ conditionErrors index (condIndex + 1) cs

/-- Branching pass over all pages. -/
def branchingPass (index : Nat) : List Page → List ValidationError
  | [] => []
  | p :: ps =>
      (match p.conditions with
       | some cs => conditionErrors index 0 cs
       | none => [])
      ++ branchingPass (index + 1) ps

/-- Embeds `NavigationValidator.validatePageFlow`: three sequential passes
appending to the same error array. -/
def validatePageFlow (pages : List Page) : List ValidationError :=
  dupIdPass [] 0 pages ++ orderPass 0 pages ++ branchingPass 0 pages

/-- Embeds `NavigationValidator.validate`. Every access is guarded, so this
method is total. -/
def navigationValidatorValidate (ts : String) (course : Course) : ValidationResult :=
  let errors : List ValidationError :=
    (match course.settings with
     | some st =>
         match st.navigation with
         | some nav => validateNavigationSettings nav
         | none => []
     | none => [])
    ++ (match course.pages with
        | some ps => if ps.length > 0 then validatePageFlow ps else []
        | none => [])
  { valid := errors.length == 0, errors := errors, timestamp := ts }

/-- Embeds `NavigationValidator.supportsField`. -/
def navigationValidatorSupportsField (fieldPath : String) : Bool :=
  jsStartsWith fieldPath "settings.navigation" || jsStartsWith fieldPath "pages["

/-- The `Validator` interface (strategy pattern). -/
structure Validator where
  validate : String → Course → Except String ValidationResult
  validateField : String → Course → String → Option String → ValidationResult
  supportsField : String → Bool

/-- The `CourseValidator` instance. -/
def CourseValidator : Validator :=
  { validate := fun ts c => .ok (courseValidatorValidate ts c),
    validateField := courseValidatorValidateField,
    supportsField := courseValidatorSupportsField }

/-- The `TemplateValidator` instance; its field-level validation
unconditionally returns a valid, empty result. -/
def TemplateValidator : Validator :=
  { validate := templateValidatorValidate,
    validateField := fun ts _ _ _ => { valid := true, errors := [], timestamp := ts },
    supportsField := templateValidatorSupportsField }

/-- The `NavigationValidator` instance; its field-level validation
unconditionally returns a valid, empty result. -/
def NavigationValidator : Validator :=
  { validate := fun ts c => .ok (navigationValidatorValidate ts c),
    validateField := fun ts _ _ _ => { valid := true, errors := [], timestamp := ts },
    supportsField := navigationValidatorSupportsField }

/-- The production registration order of the three validators. -/
def validators : List Validator := [CourseValidator, TemplateValidator, NavigationValidator]

/-- Embeds `ValidationService.determineLevel`. -/
def determineLevel (error : ValidationError) : String :=
  if error.category == "schema" then "error"
  else if error.category == "business" && jsIncludes error.field "required" then "error"
  else if error.category == "business" then "warning"
  else "info"

/-- Embeds `ValidationService.categorizeErrors`: fresh id (category + a
generated now/random component, abstracted as `gen`) and recomputed
level for every error. -/
def categorizeErrorsAux (gen : Nat → String) (i : Nat) :
    List ValidationError → List ValidationError
  | [] => []
  | e :: es =>
      { e with id := e.category ++ "-" ++ gen i, level := determineLevel e }
        :: categorizeErrorsAux gen (i + 1) es

/-- Embeds `ValidationService.categorizeErrors`. -/
def categorizeErrors (gen : Nat → String) (errors : List ValidationError) :
    List ValidationError :=
  categorizeErrorsAux gen 0 errors

/-- Embeds `ValidationService.validateCourse`: run all validators (a rejected
promise propagates), flatten in registration order, categorize. -/
def validateCourse (gen : Nat → String) (ts : String) (course : Course) :
    Except String ValidationResult := do
  let results ← validators.mapM (fun v => v.validate ts course)
  let errors := (results.map ValidationResult.errors).flatten
  return { valid := errors.length == 0, errors := categorizeErrors gen errors,
           timestamp := ts }

/-- Embeds `ValidationService.validateField`: delegate to the first validator
(in registration order) that supports the field path. -/
def validateField (ts : String) (course : Course) (fieldPath : String)
    (value : Option String) : List ValidationError :=
  match validators.find? (fun v => v.supportsField fieldPath) with
  | none => []
  | some v => (v.validateField ts course fieldPath value).errors

end Comprehensive

theorem categorizeErrorsAux_map_level (gen : Nat → String) (i : Nat)
    (es : List Comprehensive.ValidationError) :
    (Comprehensive.categorizeErrorsAux gen i es).map Comprehensive.ValidationError.level
      = es.map Comprehensive.determineLevel := by
  induction es generalizing i with
  | nil => rfl
  | cons e es ih => simp [Comprehensive.categorizeErrorsAux, ih]

/-- The final-severity rule as the claim words it: schema escalates to
error, business escalates on a `required` field path, and every other
category defaults to info unless overridden by the producing validator
(that is, the validator-assigned level survives). Stated from the
wording of the claim, for comparison with `Comprehensive.determineLevel`. -/
def claimedFinalLevel (error : Comprehensive.ValidationError) : String :=
  if error.category == "schema" then "error"
  else if error.category == "business" then
    (if jsIncludes error.field "required" then "error" else "warning")
  else error.level

/-- C1 counterexample: for an error of a category other than schema and
business, the categorization stage does not keep a validator-assigned
level — `determineLevel` returns info even when the producing validator
set error, where the claim predicts the override survives. -/
theorem determineLevel_override_counterexample :
    Comprehensive.determineLevel
        { field := "pages[0].flow", category := "navigation",
          message := "m", level := "error" } = "info"
      ∧ claimedFinalLevel
        { field := "pages[0].flow", category := "navigation",
          message := "m", level := "error" } = "error"
      ∧ ("info" : String) ≠ "error" := by
  refine ⟨by decide, by decide, by decide⟩

/-- C1 (amended): the final level is schema → error; business → error
exactly when the field path contains `required`, otherwise warning; any
other category → info unconditionally, overriding the validator-set
level. The categorization stage applies exactly this rule to every
error, and the two concrete business examples resolve as the claim
states. -/
theorem determineLevel_escalation :
    (∀ e : Comprehensive.ValidationError,
      Comprehensive.determineLevel e =
        if e.category == "schema" then "error"
        else if e.category == "business" then
          (if jsIncludes e.field "required" then "error" else "warning")
        else "info")
    ∧ (∀ (gen : Nat → String) (es : List Comprehensive.ValidationError),
        (Comprehensive.categorizeErrors gen es).map Comprehensive.ValidationError.level
          = es.map Comprehensive.determineLevel)
    ∧ Comprehensive.determineLevel
        { field := "course.pages.required", category := "business",
          message := "m", level := "warning" } = "error"
    ∧ Comprehensive.determineLevel
        { field := "pages[0].content.body", category := "business",
          message := "m", level := "error" } = "warning" := by
  refine ⟨?_, ?_, by decide, by decide⟩
  · intro e
    by_cases h1 : e.category == "schema"
    · simp [Comprehensive.determineLevel, h1]
    · by_cases h2 : e.category == "business"
      · by_cases h3 : jsIncludes e.field "required"
        · simp [Comprehensive.determineLevel, h1, h2, h3]
        · simp [Comprehensive.determineLevel, h1, h2, h3]
      · simp [Comprehensive.determineLevel, h1, h2]
  · intro gen es
    exact categorizeErrorsAux_map_level gen 0 es

/-- C10: for a field path starting with `pages[`, the service dispatch
selects the TemplateValidator (the supported-field list of the
CourseValidator does not contain such a path), whose single-field validation
unconditionally returns a valid result, so field-level validation of
page paths reports no issues. -/
theorem validateField_pages_prefix_empty
    (ts : String) (course : Comprehensive.Course) (fieldPath : String)
    (value : Option String)
    (h : jsStartsWith fieldPath "pages[" = true) :
    Comprehensive.validators.find? (fun v => v.supportsField fieldPath)
        = some Comprehensive.TemplateValidator
      ∧ Comprehensive.validateField ts course fieldPath value = [] := by
  have hne : ∀ x ∈ (["title", "description", "author", "version"] : List String),
      ¬ (fieldPath = x) := by
    intro x hx he
    rw [he] at h
    fin_cases hx <;> exact absurd h (by decide)
  have hmem : ¬ fieldPath ∈ (["title", "description", "author", "version"] : List String) :=
    fun hm => hne fieldPath hm rfl
  have hc : Comprehensive.courseValidatorSupportsField fieldPath = false := by
    unfold Comprehensive.courseValidatorSupportsField
    simpa using hmem
  have ht : Comprehensive.templateValidatorSupportsField fieldPath = true := h
  have hfind : Comprehensive.validators.find? (fun v => v.supportsField fieldPath)
      = some Comprehensive.TemplateValidator := by
    simp [Comprehensive.validators, List.find?, Comprehensive.CourseValidator,
      Comprehensive.TemplateValidator, hc, ht]
  refine ⟨hfind, ?_⟩
  simp [Comprehensive.validateField, hfind, Comprehensive.TemplateValidator]

theorem validateField_pages_prefix_empty_witness :
    Comprehensive.validateField "" {} "pages[0].content.question" none = [] :=
  (validateField_pages_prefix_empty "" {} "pages[0].content.question" none
    (by decide)).2

/-- C4 counterexample: validating a course holding a page of template
type mcq with no content payload makes the TemplateValidator throw a
TypeError (`validateMCQ` dereferences `page.content` without a guard)
instead of returning a ValidationResult. -/
theorem templateValidator_throws_on_missing_content :
    Comprehensive.TemplateValidator.validate "ts"
        { pages := some [{ templateType := some "mcq" }] }
      = Except.error Comprehensive.typeErrorMsg := by
  rfl

theorem templatePagesLoop_ok (i : Nat) (ps : List Comprehensive.Page)
    (h : ∀ p ∈ ps,
      (Comprehensive.normalizeTemplateType p = some "mcq"
        ∨ Comprehensive.normalizeTemplateType p = some "content-text"
        ∨ Comprehensive.normalizeTemplateType p = some "welcome")
      → p.content.isSome = true) :
    ∃ es, Comprehensive.templatePagesLoop i ps = Except.ok es := by
  induction ps generalizing i with
  | nil => exact ⟨[], rfl⟩
  | cons p ps ih =>
      have hp := h p (List.mem_cons_self p ps)
      have hrest := ih (i + 1) (fun q hq => h q (List.mem_cons_of_mem p hq))
      obtain ⟨rest, hrest⟩ := hrest
      have hhere : ∃ here, Comprehensive.templatePageErrors p i = Except.ok here := by
        unfold Comprehensive.templatePageErrors
        cases hn : Comprehensive.normalizeTemplateType p with
        | none => exact ⟨_, rfl⟩
        | some ty =>
            by_cases h1 : ty == "mcq"
            · have hty : Comprehensive.normalizeTemplateType p = some "mcq" := by
                rw [hn]; exact congrArg some (eq_of_beq h1)
              obtain ⟨cont, hcont⟩ := Option.isSome_iff_exists.mp (hp (Or.inl hty))
              simp only [h1, if_true]
              unfold Comprehensive.validateMCQ
              simp only [hcont]
              exact ⟨_, rfl⟩
            · by_cases h2 : ty == "content-text"
              · have hty : Comprehensive.normalizeTemplateType p = some "content-text" := by
                  rw [hn]; exact congrArg some (eq_of_beq h2)
                obtain ⟨cont, hcont⟩ := Option.isSome_iff_exists.mp (hp (Or.inr (Or.inl hty)))
                simp only [h1, h2, if_true, Bool.false_eq_true, if_false]
                unfold Comprehensive.validateContentText
                simp only [hcont]
                exact ⟨_, rfl⟩
              · by_cases h3 : ty == "welcome"
                · have hty : Comprehensive.normalizeTemplateType p = some "welcome" := by
                    rw [hn]; exact congrArg some (eq_of_beq h3)
                  obtain ⟨cont, hcont⟩ :=
                    Option.isSome_iff_exists.mp (hp (Or.inr (Or.inr hty)))
                  simp only [h1, h2, h3, if_true, Bool.false_eq_true, if_false]
                  unfold Comprehensive.validateWelcome
                  simp only [hcont]
                  exact ⟨_, rfl⟩
                · simp only [h1, h2, h3, Bool.false_eq_true, if_false]
                  exact ⟨_, rfl⟩
      obtain ⟨here, hhere⟩ := hhere
      refine ⟨here ++ rest, ?_⟩
      simp only [Comprehensive.templatePagesLoop, hhere, hrest]
      rfl

/-- C4 (amended): the CourseValidator and NavigationValidator never
throw for any (malformed) course — every access is guarded — but the
TemplateValidator only returns a result when every page whose resolved
template type is mcq, content-text or welcome actually carries a
content object; a missing content payload on such a page throws. -/
theorem validators_no_throw_amended :
    (∀ (ts : String) (c : Comprehensive.Course),
      ∃ r, Comprehensive.CourseValidator.validate ts c = Except.ok r)
    ∧ (∀ (ts : String) (c : Comprehensive.Course),
      ∃ r, Comprehensive.NavigationValidator.validate ts c = Except.ok r)
    ∧ (∀ (ts : String) (c : Comprehensive.Course),
      (∀ p ∈ c.pages.getD [],
        (Comprehensive.normalizeTemplateType p = some "mcq"
          ∨ Comprehensive.normalizeTemplateType p = some "content-text"
          ∨ Comprehensive.normalizeTemplateType p = some "welcome")
        → p.content.isSome = true) →
      ∃ r, Comprehensive.TemplateValidator.validate ts c = Except.ok r) := by
  refine ⟨fun ts c => ⟨_, rfl⟩, fun ts c => ⟨_, rfl⟩, fun ts c h => ?_⟩
  obtain ⟨es, hes⟩ := templatePagesLoop_ok 0 (c.pages.getD []) h
  refine ⟨{ valid := es.length == 0, errors := es, timestamp := ts }, ?_⟩
  show Comprehensive.templateValidatorValidate ts c = _
  unfold Comprehensive.templateValidatorValidate
  simp only [hes]
  rfl

/-- A well-formed single-option MCQ page (content object present). -/
def mcqPageWithContent : Comprehensive.Page :=
  { templateType := some "mcq",
    content := some { options := some [Comprehensive.JsPrim.ps "A"] } }

theorem validators_no_throw_amended_witness :
    ∃ r, Comprehensive.TemplateValidator.validate "ts"
        { pages := some [mcqPageWithContent] } = Except.ok r :=
  validators_no_throw_amended.2.2 "ts" { pages := some [mcqPageWithContent] }
    (by decide)

/-- The single MCQ page (one option, empty content otherwise) of the
blocking-case course. -/
def c9Page : Comprehensive.Page :=
  { id := some "p1", templateType := some "mcq", title := some "Quiz",
    order := some 0,
    content := some { options := some [Comprehensive.JsPrim.ps "A"] } }

/-- The blocking-case course of the completeness claim: empty title and
a single MCQ page with one option. -/
def c9Course : Comprehensive.Course :=
  { title := some "", author := some "Author Name", pages := some [c9Page] }

/-- C9 counterexample: the full validation pass over the blocking-case
course yields four errors and `valid = false`, but the three MCQ
business errors end with final level warning (their field paths do not
contain `required`), so the claim that all errors carry final level
error is false. -/
theorem validateCourse_blocking_counterexample :
    (Comprehensive.validateCourse (fun _ => "r") "ts" c9Course).toOption.map
        (fun r => (r.valid, r.errors.length,
          r.errors.all (fun e => e.level == "error")))
      = some (false, 4, false) := by
  rfl

/-- C9 (amended): the blocking-case course produces at least three
errors (four in total) and `valid = false`; exactly one error — the
empty-title schema error — has final level error, and the three MCQ
business errors have final level warning. -/
theorem validateCourse_blocking_amended :
    (Comprehensive.validateCourse (fun _ => "r") "ts" c9Course).toOption.map
        (fun r => (r.valid, r.errors.length,
          r.errors.countP (fun e => e.level == "error"),
          r.errors.countP (fun e => e.level == "warning")))
      = some (false, 4, 1, 3) := by
  rfl

/-! ## Normalization / transform layer

Embedding of `utils/transform.ts` (`transformCourseForBackend`,
`transformCourseForExport`) over the `types/course.ts` course shape.
The object spread `{...t, ...}` keeps every field of the source
template, so the transform output reuses the same `Template`
structure; object keys absent from a rebuilt literal are `none`. -/

namespace TransformUtil

/-- A normalized MCQ option (`{id, text, isCorrect}`). -/
structure QOpt where
  id : String
  text : String
  isCorrect : Bool
deriving DecidableEq, Repr

/-- A normalized MCQ question (`{id, question, options}`). -/
structure Question where
  id : String
  question : String
  options : List QOpt
deriving DecidableEq, Repr

/-- An entry of a legacy `options` array: a plain string, an object
carrying some of `id`/`text`/`option`/`isCorrect`, or any other value
(neither string nor object, e.g. a number or null). -/
inductive RawOpt where
  | rstr (s : String)
  | robj (id text option : Option String) (isCorrect : Option Bool)
  | rother
deriving DecidableEq, Repr

/-- The free-form page payload (`data` on API templates, `content` on
editor pages): the properties the two transforms read. -/
structure TplData where
  content : Option String := none
  description : Option String := none
  body : Option String := none
  subtitle : Option String := none
  videoUrl : Option String := none
  template_name : Option String := none
  question : Option String := none
  options : Option (List RawOpt) := none
  correctAnswer : Option String := none
  questions : Option (List Question) := none
deriving DecidableEq, Repr

/-- A page/template of `types/course.ts` as read by the transforms. -/
structure Template where
  id : Option String := none
  type : Option String := none
  templateType : Option String := none
  title : Option String := none
  order : Option Int := none
  content : Option TplData := none
  data : Option TplData := none
deriving DecidableEq, Repr

/-- An asset; only passed through by the transforms. -/
structure Asset where
  id : Option String := none
  url : Option String := none
deriving DecidableEq, Repr

/-- Embeds `NavigationSettings` of `types/course.ts`, plus the canonical
`linearProgression` the backend shape uses. -/
structure NavigationSettings where
  allowSkip : Option Bool := none
  showProgress : Option Bool := none
  linearProgression : Option Bool := none
  lockProgression : Option Bool := none
deriving DecidableEq, Repr

/-- Embeds `CourseSettings` of `types/course.ts`. -/
structure CourseSettings where
  theme : Option String := none
  autoplay : Option Bool := none
  duration : Option Int := none
deriving DecidableEq, Repr

/-- Embeds `Course` of `types/course.ts`, covering both the editor shape
(`pages`) and the API shape (`templates`). -/
structure Course where
  courseId : Option String := none
  title : Option String := none
  description : Option String := none
  author : Option String := none
  version : Option String := none
  language : Option String := none
  createdAt : Option String := none
  updatedAt : Option String := none
  pages : Option (List Template) := none
  templates : Option (List Template) := none
  assets : Option (List Asset) := none
  navigation : Option NavigationSettings := none
  settings : Option CourseSettings := none
deriving DecidableEq, Repr

/-- The sort key `(t.order ?? 0)` of the comparator. -/
def orderKey (t : Template) : Int := t.order.getD 0

/-- The comparator `(a.order ?? 0) - (b.order ?? 0)` sorts ascending;
`Array.prototype.sort` is stable (ES2019), and the stable ascending
reordering is exactly insertion sort under this relation. -/
def orderLe (a b : Template) : Prop := orderKey a ≤ orderKey b

instance : DecidableRel orderLe := fun a b => inferInstanceAs (Decidable (orderKey a ≤ orderKey b))

instance : IsTotal Template orderLe := ⟨fun a b => le_total (orderKey a) (orderKey b)⟩

instance : IsTrans Template orderLe := ⟨fun _ _ _ => le_trans⟩

/-- Embeds `cloned.templates || cloned.pages || []` (arrays are truthy even
when empty, so a present-but-empty `templates` wins). -/
def sourceTemplates (c : Course) : List Template :=
  ((c.templates).orElse (fun _ => c.pages)).getD []

/-- Embeds `t.data || t.content || {}` (objects are truthy). -/
def effectiveData (t : Template) : TplData :=
  ((t.data).orElse (fun _ => t.content)).getD {}

/-- Embeds `sourceData.content ?? sourceData.description ?? sourceData.body ?? ""`. -/
def deriveContent (d : TplData) : String :=
  ((((d.content).orElse (fun _ => d.description)).orElse (fun _ => d.body))).getD ""

/-- Embeds `typeof opt === "string" ? opt : opt?.text || opt?.option || ""`. -/
def optText : RawOpt → String
  | .rstr s => s
  | .robj _ text option _ => jsOrStr text (jsOrStr option "")
  | .rother => ""

/-- Embeds `correctAnswerIndex`: `content.correctAnswer ? options.findIndex(
opt => optionText.trim() === (correctAnswer || "").trim()) : -1`. -/
def correctAnswerIndex (d : TplData) : Int :=
  if jsTruthyStr d.correctAnswer then
    jsFindIndex
      (fun opt => jsTrim (optText opt) == jsTrim (jsOrStr d.correctAnswer ""))
      (d.options.getD [])
  else -1

/-- The same `findIndex`, without the truthiness guard (the export
re-application branch computes it unguarded). -/
def correctAnswerIndexNoGuard (d : TplData) : Int :=
  jsFindIndex
    (fun opt => jsTrim (optText opt) == jsTrim (jsOrStr d.correctAnswer ""))
    (d.options.getD [])

/-- One formatted option of the backend MCQ bridging (ids `opt_{i+1}`). -/
def formatOption (caIdx : Int) (optIdx : Nat) : RawOpt → QOpt
  | .rstr s =>
      { id := "opt_" ++ toString (optIdx + 1), text := s,
        isCorrect := (optIdx : Int) == caIdx }
  | .robj id text option isCorrect =>
      { id := jsOrStr id ("opt_" ++ toString (optIdx + 1)),
        text := jsOrStr text (jsOrStr option ("Option " ++ toString (optIdx + 1))),
        isCorrect := ((optIdx : Int) == caIdx) || (isCorrect == some true) }
  | .rother =>
      { id := "opt_" ++ toString (optIdx + 1),
        text := "Option " ++ toString (optIdx + 1), isCorrect := false }

/-- Embeds `options.map((opt, optIdx) => ...)` of the backend bridging. -/
def formatOptions (caIdx : Int) (optIdx : Nat) : List RawOpt → List QOpt
  | [] => []
  | o :: os => formatOption caIdx optIdx o :: formatOptions caIdx (optIdx + 1) os

/-- The backend MCQ bridging: keep an existing `questions` array;
otherwise, when the legacy `question`+`options` pair is present,
synthesize the single bridged question; otherwise leave it absent. -/
def deriveQuestions (t : Template) (d : TplData) : Option (List Question) :=
  match d.questions with
  | some qs => some qs
  | none =>
      if jsTruthyStr d.question && d.options.isSome then
        some [{ id := jsShow t.id ++ "_q1",
                question := d.question.getD "",
                options := formatOptions (correctAnswerIndex d) 0 (d.options.getD []) }]
      else none

/-- The rebuilt `data` object literal of the backend map callback:
`{ content, subtitle: ... || undefined, videoUrl: ... || undefined,
questions: questions || undefined }`. -/
def rebuiltData (t : Template) : TplData :=
  let sourceData := effectiveData t
  { content := some (deriveContent sourceData),
    subtitle := jsOrUndef sourceData.subtitle,
    videoUrl := jsOrUndef sourceData.videoUrl,
    questions := deriveQuestions t sourceData }

/-- The per-template body of the backend transform: the object spread
keeps every original field; `type`, `order` and `data` are overridden. -/
def transformTemplate (idx : Nat) (t : Template) : Template :=
  { t with
      type := jsOrStrOpt t.type t.templateType,
      order := some (idx : Int),
      data := some (rebuiltData t) }

/-- Embeds `sortedTemplates.map((t, idx) => ...)`: sequential order indices. -/
def resequence (idx : Nat) : List Template → List Template
  | [] => []
  | t :: ts => transformTemplate idx t :: resequence (idx + 1) ts

/-- The default settings object `{theme:"default", autoplay:false,
duration:undefined}`. -/
def defaultSettings : CourseSettings :=
  { theme := some "default", autoplay := some false, duration := none }

/-- The version ternary of the backend transform:
`cloned.version && /^\d+\.\d+\.\d+$/.test(cloned.version) ?
cloned.version : "1.0.0"`. -/
def versionFix (v0 : Option String) : String :=
  match v0 with
  | some v => if v != "" && isSemVer v then v else "1.0.0"
  | none => "1.0.0"

/-- Embeds `transformCourseForBackend` of `utils/transform.ts` (the
`JSON.parse(JSON.stringify(...))` deep clone is the identity on these
pure values). -/
def transformCourseForBackend (course : Course) : Course :=
  let language := jsOrStr course.language "en"
  let settings := course.settings.getD defaultSettings
  let sorted := List.insertionSort orderLe (sourceTemplates course)
  let transformedTemplates := resequence 0 sorted
  let nav := course.navigation.getD {}
  let linearProgression :=
    match nav.linearProgression with
    | some b => b
    | none => nav.lockProgression.getD false
  { courseId := course.courseId,
    title := course.title,
    author := some (jsOrStr course.author "Unknown"),
    version := some (versionFix course.version),
    language := some (jsOrStr (some language) "en"),
    templates := some transformedTemplates,
    assets := some (course.assets.getD []),
    navigation := some
      { allowSkip := some (nav.allowSkip.getD true),
        showProgress := some (nav.showProgress.getD true),
        linearProgression := some linearProgression,
        lockProgression := none },
    settings := some settings,
    description := none, createdAt := none, updatedAt := none,
    pages := none }

/-- Embeds `data` of an exported template. -/
structure ExportData where
  content : String := ""
  subtitle : Option String := none
  videoUrl : Option String := none
  questions : Option (List Question) := none
deriving DecidableEq, Repr

/-- A template of the export shape. -/
structure ExportTemplate where
  id : Option String := none
  type : Option String := none
  order : Nat := 0
  title : Option String := none
  data : ExportData := {}
deriving DecidableEq, Repr

/-- The course shape emitted by `transformCourseForExport`. -/
structure ExportCourse where
  courseId : Option String := none
  title : Option String := none
  author : String := ""
  language : String := ""
  version : String := ""
  templates : List ExportTemplate := []
deriving DecidableEq, Repr

/-- Embeds `page.type === "mcq" || page.templateType === "mcq"`. -/
def isMcqPage (page : Template) : Bool :=
  page.type == some "mcq" || page.templateType == some "mcq"

/-- One formatted option of the export bridging (string ids use
`opt_{i}` here, unlike the backend transform). -/
def exportFormatOption (caIdx : Int) (i : Nat) : RawOpt → QOpt
  | .rstr s =>
      { id := "opt_" ++ toString i, text := s, isCorrect := (i : Int) == caIdx }
  | .robj id text option isCorrect =>
      { id := jsOrStr id ("opt_" ++ toString i),
        text := jsOrStr text (jsOrStr option ("Option " ++ toString (i + 1))),
        isCorrect := ((i : Int) == caIdx) || (isCorrect == some true) }
  | .rother =>
      { id := "opt_" ++ toString i, text := "Option " ++ toString (i + 1),
        isCorrect := false }

/-- Embeds `content.options.map((opt, i) => ...)` of the export bridging. -/
def exportFormatOptions (caIdx : Int) (i : Nat) : List RawOpt → List QOpt
  | [] => []
  | o :: os => exportFormatOption caIdx i o :: exportFormatOptions caIdx (i + 1) os

/-- Embeds `options.map((opt, i) => ({...opt, isCorrect: i ===
correctAnswerIndex}))`: the export re-application over an existing
options of an existing question. -/
def reapplyOptions (caIdx : Int) (i : Nat) : List QOpt → List QOpt
  | [] => []
  | o :: os => { o with isCorrect := (i : Int) == caIdx } :: reapplyOptions caIdx (i + 1) os

/-- Embeds `mcqQuestions.map(q => ({...q, options: ...}))`. -/
def reapplyCorrect (caIdx : Int) (qs : List Question) : List Question :=
  qs.map (fun q => { q with options := reapplyOptions caIdx 0 q.options })

/-- The synthesized placeholder question the export transform falls
back to when an MCQ page has no question data. -/
def placeholderQuestion (pageId : Option String) : Question :=
  { id := "q_" ++ jsShow pageId, question := "Sample Question",
    options := [{ id := "opt_0", text := "Option 1", isCorrect := false },
                { id := "opt_1", text := "Option 2", isCorrect := true }] }

/-- The `questions` array the export transform settles on for an MCQ
page: bridge the legacy shape, or re-apply a stray `correctAnswer`
over existing questions, and never leave the array empty. -/
def exportMcqQuestions (page : Template) (content : TplData) : List Question :=
  let questions := (content.questions).getD []
  let bridged :=
    if questions.length == 0 && jsTruthyStr content.question && content.options.isSome then
      [{ id := "q_" ++ jsShow page.id,
         question := jsOrStr content.question "Question?",
         options := exportFormatOptions (correctAnswerIndex content) 0
           (content.options.getD []) }]
    else if decide (questions.length > 0) && jsTruthyStr content.correctAnswer then
      reapplyCorrect (correctAnswerIndexNoGuard content) questions
    else questions
  if bridged.length == 0 then [placeholderQuestion page.id] else bridged

/-- The per-page body of the export transform. -/
def exportTemplate (index : Nat) (page : Template) : ExportTemplate :=
  let content := effectiveData page
  let base : ExportTemplate :=
    { id := page.id, type := jsOrStrOpt page.type page.templateType,
      order := index, title := page.title }
  if isMcqPage page then
    { base with data :=
        { content := jsOrStr content.content "Quiz",
          questions := some (exportMcqQuestions page content) } }
  else
    { base with data :=
        { content := jsOrStr content.content
            (jsOrStr content.template_name (jsOrStr content.body "Content")),
          subtitle := jsOrUndef content.subtitle,
          videoUrl := jsOrUndef content.videoUrl } }

/-- Embeds `sourceTemplates.map((page, index) => ...)`; the export transform
does not sort. -/
def exportPages (index : Nat) : List Template → List ExportTemplate
  | [] => []
  | p :: ps => exportTemplate index p :: exportPages (index + 1) ps

/-- Embeds `transformCourseForExport` of `utils/transform.ts`. -/
def transformCourseForExport (course : Course) : ExportCourse :=
  { courseId := course.courseId,
    title := course.title,
    author := jsOrStr course.author "Unknown Author",
    language := jsOrStr course.language "en",
    version := jsOrStr course.version "1.0.0",
    templates := exportPages 0 (sourceTemplates course) }

end TransformUtil

theorem filter_orderedInsert_orderKey (k : Int) (a : TransformUtil.Template)
    (s : List TransformUtil.Template) :
    (List.orderedInsert TransformUtil.orderLe a s).filter
        (fun t => TransformUtil.orderKey t == k)
      = if TransformUtil.orderKey a = k then
          a :: s.filter (fun t => TransformUtil.orderKey t == k)
        else s.filter (fun t => TransformUtil.orderKey t == k) := by
  induction s with
  | nil => simp [List.orderedInsert, List.filter_cons, beq_iff_eq]
  | cons b bs ih =>
      by_cases hab : TransformUtil.orderLe a b
      · simp [List.orderedInsert, hab, List.filter_cons, beq_iff_eq]
      · have hlt : TransformUtil.orderKey b < TransformUtil.orderKey a :=
          lt_of_not_le hab
        by_cases hbk : TransformUtil.orderKey b = k
        · have hak : TransformUtil.orderKey a ≠ k := by omega
          simp [List.orderedInsert, hab, List.filter_cons, beq_iff_eq, hbk, hak, ih]
        · simp [List.orderedInsert, hab, List.filter_cons, beq_iff_eq, hbk, ih]

theorem filter_insertionSort_orderKey (k : Int) (l : List TransformUtil.Template) :
    (List.insertionSort TransformUtil.orderLe l).filter
        (fun t => TransformUtil.orderKey t == k)
      = l.filter (fun t => TransformUtil.orderKey t == k) := by
  induction l with
  | nil => rfl
  | cons a l ih =>
      simp only [List.insertionSort]
      rw [filter_orderedInsert_orderKey]
      by_cases hak : TransformUtil.orderKey a = k
      · simp [List.filter_cons, beq_iff_eq, hak, ih]
      · simp [List.filter_cons, beq_iff_eq, hak, ih]

theorem resequence_map_order (i : Nat) (l : List TransformUtil.Template) :
    (TransformUtil.resequence i l).map TransformUtil.Template.order
      = (List.range l.length).map (fun n => some ((i + n : Nat) : Int)) := by
  induction l generalizing i with
  | nil => rfl
  | cons t ts ih =>
      show some (i : Int) :: (TransformUtil.resequence (i + 1) ts).map
          TransformUtil.Template.order = _
      rw [ih (i + 1)]
      simp only [List.length_cons, List.range_succ_eq_map, List.map_cons, List.map_map]
      refine congrArg₂ _ (by simp) ?_
      refine List.map_congr_left ?_
      intro n _
      simp [Function.comp]
      omega

/-- The three pages of the order-resequencing scenario: order values
`[5, 5, 2]`. -/
def pageA5 : TransformUtil.Template := { id := some "a", order := some 5 }

def pageB5 : TransformUtil.Template := { id := some "b", order := some 5 }

def pageC2 : TransformUtil.Template := { id := some "c", order := some 2 }

/-- C5: the backend transform sorts the pages ascending by the original
`order` key with a stable sort — the sorted sequence is ordered by the
key and, for every key value, keeps the original relative sequence —
then reassigns `order` to `0..n-1`; on input orders `[5, 5, 2]` the
output is the order-2 page first, then the two order-5 pages in their
original relative sequence, with orders exactly `[0, 1, 2]`. -/
theorem transformForBackend_resequences_stable_sort :
    (∀ c : TransformUtil.Course,
      ((TransformUtil.transformCourseForBackend c).templates.getD []).map
          TransformUtil.Template.order
        = (List.range (TransformUtil.sourceTemplates c).length).map
            (fun n => some ((n : Nat) : Int)))
    ∧ (∀ c : TransformUtil.Course,
        List.Sorted TransformUtil.orderLe
          (List.insertionSort TransformUtil.orderLe (TransformUtil.sourceTemplates c)))
    ∧ (∀ (l : List TransformUtil.Template) (k : Int),
        (List.insertionSort TransformUtil.orderLe l).filter
            (fun t => TransformUtil.orderKey t == k)
          = l.filter (fun t => TransformUtil.orderKey t == k))
    ∧ (((TransformUtil.transformCourseForBackend
          { pages := some [pageA5, pageB5, pageC2] }).templates.getD []).map
          (fun t => (t.id, t.order))
        = [(some "c", some 0), (some "a", some 1), (some "b", some 2)]) := by
  refine ⟨?_, ?_, ?_, by decide⟩
  · intro c
    have ht : (TransformUtil.transformCourseForBackend c).templates
        = some (TransformUtil.resequence 0
            (List.insertionSort TransformUtil.orderLe (TransformUtil.sourceTemplates c))) :=
      rfl
    rw [ht, Option.getD_some, resequence_map_order,
      List.length_insertionSort]
    simp
  · intro c
    exact List.sorted_insertionSort TransformUtil.orderLe _
  · exact fun l k => filter_insertionSort_orderKey k l

theorem jsFindIndexAux_eq_neg_one {α : Type} (p : α → Bool) (i : Int) (l : List α)
    (h : ∀ x ∈ l, p x = false) : jsFindIndexAux p i l = -1 := by
  induction l generalizing i with
  | nil => rfl
  | cons x xs ih =>
      have hx : p x = false := h x (List.mem_cons_self x xs)
      simp only [jsFindIndexAux, hx, Bool.false_eq_true, if_false]
      exact ih (i + 1) (fun y hy => h y (List.mem_cons_of_mem x hy))

theorem formatOptions_strings_all_false (i : Nat) (opts : List TransformUtil.RawOpt)
    (hstr : ∀ o ∈ opts, ∃ s, o = TransformUtil.RawOpt.rstr s) :
    ∀ o ∈ TransformUtil.formatOptions (-1) i opts, o.isCorrect = false := by
  induction opts generalizing i with
  | nil => intro o ho; simp [TransformUtil.formatOptions] at ho
  | cons a as ih =>
      intro o ho
      obtain ⟨s, hs⟩ := hstr a (List.mem_cons_self a as)
      subst hs
      rcases List.mem_cons.mp ho with ho | ho
      · rw [ho]
        show ((i : Int) == (-1 : Int)) = false
        exact beq_eq_false_iff_ne.mpr (by omega)
      · exact ih (i + 1) (fun o' ho' => hstr o' (List.mem_cons_of_mem _ ho')) o ho

/-- The legacy MCQ payload of the bridging scenario. -/
def mcqLegacyData : TransformUtil.TplData :=
  { question := some "Q",
    options := some [TransformUtil.RawOpt.rstr "A", TransformUtil.RawOpt.rstr "B",
      TransformUtil.RawOpt.rstr "C"],
    correctAnswer := some "B" }

/-- A legacy MCQ page (editor shape: payload under `content`). -/
def mcqLegacyPage : TransformUtil.Template :=
  { id := some "p1", templateType := some "mcq", content := some mcqLegacyData }

/-- A course holding only the legacy MCQ page. -/
def mcqLegacyCourse : TransformUtil.Course := { pages := some [mcqLegacyPage] }

/-- C6: on the legacy payload `{question:"Q", options:["A","B","C"],
correctAnswer:"B"}` the backend transform emits one bridged question
whose options are flagged by exact text match after trimming — exactly
the "B" option is correct; and for a legacy payload whose string
options all fail the trimmed text match against `correctAnswer`, no
bridged option is flagged correct. -/
theorem transformForBackend_mcq_bridging :
    (((TransformUtil.transformCourseForBackend mcqLegacyCourse).templates.getD []).map
        (fun t => ((t.data.getD {}).questions.getD []).map
          (fun q => q.options.map (fun o => (o.text, o.isCorrect)))))
      = [[[("A", false), ("B", true), ("C", false)]]]
    ∧ (∀ (t : TransformUtil.Template) (d : TransformUtil.TplData) (ca : String)
        (opts : List TransformUtil.RawOpt),
        d.questions = none →
        jsTruthyStr d.question = true →
        d.options = some opts →
        d.correctAnswer = some ca →
        (∀ o ∈ opts, ∃ s, o = TransformUtil.RawOpt.rstr s) →
        (∀ o ∈ opts, jsTrim (TransformUtil.optText o) ≠ jsTrim ca) →
        ∀ q ∈ (TransformUtil.deriveQuestions t d).getD [],
          ∀ o ∈ q.options, o.isCorrect = false) := by
  constructor
  · decide
  · intro t d ca opts hqs hq hopt hca hstr hnm
    have hidx : TransformUtil.correctAnswerIndex d = -1 := by
      unfold TransformUtil.correctAnswerIndex
      by_cases htr : jsTruthyStr d.correctAnswer = true
      · rw [if_pos htr]
        have hcane : ca ≠ "" := by
          rw [hca] at htr
          simpa [jsTruthyStr] using htr
        have hor : jsOrStr d.correctAnswer "" = ca := by
          simp [hca, jsOrStr, hcane]
        refine jsFindIndexAux_eq_neg_one _ 0 _ ?_
        intro x hx
        rw [hopt, Option.getD_some] at hx
        rw [hor]
        exact beq_eq_false_iff_ne.mpr (hnm x hx)
      · rw [if_neg htr]
    intro q hqmem o homem
    unfold TransformUtil.deriveQuestions at hqmem
    rw [hqs] at hqmem
    simp only [hq, hopt, Option.isSome_some, Bool.and_true, Bool.true_and, if_true,
      Option.getD_some, List.mem_singleton] at hqmem
    rw [hqmem] at homem
    simp only at homem
    rw [hidx] at homem
    exact formatOptions_strings_all_false 0 opts hstr o homem

/-- The single-option unmatched-answer payload used to instantiate the
no-match half of the bridging claim. -/
def mcqNoMatchData : TransformUtil.TplData :=
  { question := some "Q", options := some [TransformUtil.RawOpt.rstr "A"],
    correctAnswer := some "Z" }

theorem transformForBackend_mcq_bridging_witness :
    ∀ q ∈ (TransformUtil.deriveQuestions {} mcqNoMatchData).getD [],
      ∀ o ∈ q.options, o.isCorrect = false :=
  transformForBackend_mcq_bridging.2 {} mcqNoMatchData "Z"
    [TransformUtil.RawOpt.rstr "A"] rfl rfl rfl rfl
    (fun o ho => by
      rcases List.mem_singleton.mp ho with h
      exact ⟨"A", h⟩)
    (by decide)

theorem final_if_ne_nil (pid : Option String) (l : List TransformUtil.Question) :
    (if l.length == 0 then [TransformUtil.placeholderQuestion pid] else l) ≠ [] := by
  by_cases h : l.length == 0
  · simp [h]
  · simp only [h, Bool.false_eq_true, if_false]
    intro hnil
    rw [hnil] at h
    exact h rfl

theorem exportMcqQuestions_ne_nil (page : TransformUtil.Template)
    (content : TransformUtil.TplData) :
    TransformUtil.exportMcqQuestions page content ≠ [] := by
  unfold TransformUtil.exportMcqQuestions
  exact final_if_ne_nil page.id _

/-- C8: an MCQ page carrying no question data at all exports with a
`questions` array of length exactly one — the synthesized placeholder,
which has exactly one option flagged correct; every MCQ page exports
with a nonempty `questions` array; and on the same no-data payload the
backend transform leaves `questions` absent (it never synthesizes a
placeholder). -/
theorem transformForExport_mcq_placeholder :
    (∀ (i : Nat) (p : TransformUtil.Template),
        TransformUtil.isMcqPage p = true →
        (TransformUtil.effectiveData p).question = none →
        (TransformUtil.effectiveData p).options = none →
        ((TransformUtil.effectiveData p).questions = none
          ∨ (TransformUtil.effectiveData p).questions = some []) →
        (TransformUtil.exportTemplate i p).data.questions
            = some [TransformUtil.placeholderQuestion p.id]
          ∧ (TransformUtil.placeholderQuestion p.id).options.countP
              (fun o => o.isCorrect) = 1)
    ∧ (∀ (i : Nat) (p : TransformUtil.Template),
        TransformUtil.isMcqPage p = true →
        ∃ qs, (TransformUtil.exportTemplate i p).data.questions = some qs ∧ qs ≠ [])
    ∧ (∀ (i : Nat) (t : TransformUtil.Template),
        (TransformUtil.effectiveData t).question = none →
        (TransformUtil.effectiveData t).questions = none →
        ((TransformUtil.transformTemplate i t).data.getD {}).questions = none) := by
  refine ⟨?_, ?_, ?_⟩
  · intro i p hmcq hq hopt hqs
    refine ⟨?_, rfl⟩
    have hemcq : TransformUtil.exportMcqQuestions p (TransformUtil.effectiveData p)
        = [TransformUtil.placeholderQuestion p.id] := by
      rcases hqs with h | h <;>
        simp [TransformUtil.exportMcqQuestions, h, hq, jsTruthyStr]
    simp [TransformUtil.exportTemplate, hmcq, hemcq]
  · intro i p hmcq
    refine ⟨TransformUtil.exportMcqQuestions p (TransformUtil.effectiveData p), ?_,
      exportMcqQuestions_ne_nil p (TransformUtil.effectiveData p)⟩
    simp [TransformUtil.exportTemplate, hmcq]
  · intro i t hq hqs
    simp [TransformUtil.transformTemplate, TransformUtil.rebuiltData,
      TransformUtil.deriveQuestions, hq, hqs, jsTruthyStr]

theorem jsOrStr_absorb (a : Option String) (b : String) :
    jsOrStr (some (jsOrStr a b)) b = jsOrStr a b := by
  cases a with
  | none =>
      by_cases hb : b = "" <;> simp [jsOrStr, hb]
  | some s =>
      by_cases hs : s = ""
      · by_cases hb : b = "" <;> simp [jsOrStr, hs, hb]
      · simp [jsOrStr, hs]

theorem effectiveData_transformTemplate (i : Nat) (t : TransformUtil.Template) :
    TransformUtil.effectiveData (TransformUtil.transformTemplate i t)
      = TransformUtil.rebuiltData t := rfl

theorem deriveQuestions_transformTemplate (i : Nat) (t : TransformUtil.Template) :
    TransformUtil.deriveQuestions (TransformUtil.transformTemplate i t)
        (TransformUtil.rebuiltData t)
      = TransformUtil.deriveQuestions t (TransformUtil.effectiveData t) := by
  cases h : TransformUtil.deriveQuestions t (TransformUtil.effectiveData t) with
  | some qs =>
      have hq : (TransformUtil.rebuiltData t).questions = some qs := by
        show TransformUtil.deriveQuestions t (TransformUtil.effectiveData t) = some qs
        exact h
      simp [TransformUtil.deriveQuestions, hq]
  | none =>
      have hq : (TransformUtil.rebuiltData t).questions = none := by
        show TransformUtil.deriveQuestions t (TransformUtil.effectiveData t) = none
        exact h
      have hqq : (TransformUtil.rebuiltData t).question = none := rfl
      simp [TransformUtil.deriveQuestions, hq, hqq, jsTruthyStr]

theorem rebuiltData_transformTemplate (i : Nat) (t : TransformUtil.Template) :
    TransformUtil.rebuiltData (TransformUtil.transformTemplate i t)
      = TransformUtil.rebuiltData t := by
  show TransformUtil.TplData.mk
      (some (TransformUtil.deriveContent (TransformUtil.rebuiltData t)))
      none none
      (jsOrUndef (TransformUtil.rebuiltData t).subtitle)
      (jsOrUndef (TransformUtil.rebuiltData t).videoUrl)
      none none none none
      (TransformUtil.deriveQuestions (TransformUtil.transformTemplate i t)
        (TransformUtil.rebuiltData t))
      = TransformUtil.rebuiltData t
  rw [deriveQuestions_transformTemplate]
  have hsub : (TransformUtil.rebuiltData t).subtitle
      = jsOrUndef (TransformUtil.effectiveData t).subtitle := rfl
  have hvid : (TransformUtil.rebuiltData t).videoUrl
      = jsOrUndef (TransformUtil.effectiveData t).videoUrl := rfl
  have hcontent : TransformUtil.deriveContent (TransformUtil.rebuiltData t)
      = TransformUtil.deriveContent (TransformUtil.effectiveData t) := rfl
  rw [hcontent, hsub, hvid, jsOrUndef_idem, jsOrUndef_idem]
  rfl

theorem transformTemplate_mk (i : Nat) (t : TransformUtil.Template) :
    TransformUtil.transformTemplate i t
      = TransformUtil.Template.mk t.id (jsOrStrOpt t.type t.templateType)
          t.templateType t.title (some (i : Int)) t.content
          (some (TransformUtil.rebuiltData t)) := rfl

theorem transformTemplate_idem (i : Nat) (t : TransformUtil.Template) :
    TransformUtil.transformTemplate i (TransformUtil.transformTemplate i t)
      = TransformUtil.transformTemplate i t := by
  have h1 : (TransformUtil.transformTemplate i t).id = t.id := rfl
  have h2 : (TransformUtil.transformTemplate i t).type
      = jsOrStrOpt t.type t.templateType := rfl
  have h3 : (TransformUtil.transformTemplate i t).templateType = t.templateType := rfl
  have h4 : (TransformUtil.transformTemplate i t).title = t.title := rfl
  have h5 : (TransformUtil.transformTemplate i t).content = t.content := rfl
  conv_lhs => rw [transformTemplate_mk i (TransformUtil.transformTemplate i t)]
  rw [h1, h2, h3, h4, h5, rebuiltData_transformTemplate, jsOrStrOpt_assoc_absorb]
  exact (transformTemplate_mk i t).symm

theorem orderKey_resequence_ge (i : Nat) (l : List TransformUtil.Template) :
    ∀ t ∈ TransformUtil.resequence i l, (i : Int) ≤ TransformUtil.orderKey t := by
  induction l generalizing i with
  | nil => intro t ht; simp [TransformUtil.resequence] at ht
  | cons a as ih =>
      intro t ht
      rcases List.mem_cons.mp ht with h | h
      · rw [h]
        have hk : TransformUtil.orderKey (TransformUtil.transformTemplate i a)
            = (i : Int) := rfl
        rw [hk]
      · have h1 := ih (i + 1) t h
        have h2 : ((i : Nat) : Int) ≤ (((i + 1 : Nat)) : Int) := by omega
        omega

theorem pairwise_resequence (i : Nat) (l : List TransformUtil.Template) :
    List.Pairwise TransformUtil.orderLe (TransformUtil.resequence i l) := by
  induction l generalizing i with
  | nil => exact List.Pairwise.nil
  | cons a as ih =>
      refine List.Pairwise.cons ?_ (ih (i + 1))
      intro t ht
      show TransformUtil.orderKey (TransformUtil.transformTemplate i a)
        ≤ TransformUtil.orderKey t
      have hk : TransformUtil.orderKey (TransformUtil.transformTemplate i a)
          = (i : Int) := rfl
      have h1 := orderKey_resequence_ge (i + 1) as t ht
      rw [hk]
      omega

theorem resequence_idem (i : Nat) (l : List TransformUtil.Template) :
    TransformUtil.resequence i (TransformUtil.resequence i l)
      = TransformUtil.resequence i l := by
  induction l generalizing i with
  | nil => rfl
  | cons a as ih =>
      show TransformUtil.transformTemplate i (TransformUtil.transformTemplate i a)
          :: TransformUtil.resequence (i + 1) (TransformUtil.resequence (i + 1) as)
        = _
      rw [transformTemplate_idem, ih (i + 1)]
      rfl

theorem versionFix_idem (v0 : Option String) :
    TransformUtil.versionFix (some (TransformUtil.versionFix v0))
      = TransformUtil.versionFix v0 := by
  cases v0 with
  | none => decide
  | some v =>
      unfold TransformUtil.versionFix
      by_cases hsem : (v != "" && isSemVer v) = true
      · simp [hsem]
      · simp [hsem]

theorem transformCourseForBackend_mk (c : TransformUtil.Course) :
    TransformUtil.transformCourseForBackend c
      = TransformUtil.Course.mk c.courseId c.title none
          (some (jsOrStr c.author "Unknown"))
          (some (TransformUtil.versionFix c.version))
          (some (jsOrStr (some (jsOrStr c.language "en")) "en"))
          none none none
          (some (TransformUtil.resequence 0
            (List.insertionSort TransformUtil.orderLe (TransformUtil.sourceTemplates c))))
          (some (c.assets.getD []))
          (some (TransformUtil.NavigationSettings.mk
            (some ((c.navigation.getD {}).allowSkip.getD true))
            (some ((c.navigation.getD {}).showProgress.getD true))
            (some (match (c.navigation.getD {}).linearProgression with
                   | some b => b
                   | none => (c.navigation.getD {}).lockProgression.getD false))
            none))
          (some (c.settings.getD TransformUtil.defaultSettings)) := rfl

/-- C7: normalization is idempotent — applying `transformCourseForBackend`
to its own output is a no-op: the order is already sequential (so the
stable sort and the resequencing do nothing), the navigation is already
mapped to `linearProgression`, the version/author/language defaults are
already applied, and the MCQ data is already in the normalized
`questions` shape (the bridging guard no longer fires). -/
theorem transformForBackend_idempotent :
    ∀ c : TransformUtil.Course,
      TransformUtil.transformCourseForBackend
          (TransformUtil.transformCourseForBackend c)
        = TransformUtil.transformCourseForBackend c := by
  intro c
  refine Eq.trans ?_ (transformCourseForBackend_mk c).symm
  conv_lhs => rw [transformCourseForBackend_mk
    (TransformUtil.transformCourseForBackend c)]
  congr 1
  · rw [show (TransformUtil.transformCourseForBackend c).author
        = some (jsOrStr c.author "Unknown") from rfl, jsOrStr_absorb]
  · rw [show (TransformUtil.transformCourseForBackend c).version
        = some (TransformUtil.versionFix c.version) from rfl, versionFix_idem]
  · rw [show (TransformUtil.transformCourseForBackend c).language
        = some (jsOrStr (some (jsOrStr c.language "en")) "en") from rfl]
    simp only [jsOrStr_absorb]
  · rw [show TransformUtil.sourceTemplates (TransformUtil.transformCourseForBackend c)
        = TransformUtil.resequence 0
            (List.insertionSort TransformUtil.orderLe (TransformUtil.sourceTemplates c))
      from rfl]
    rw [List.Sorted.insertionSort_eq (pairwise_resequence 0 _), resequence_idem]

theorem transformForExport_mcq_placeholder_witness :
    (TransformUtil.exportTemplate 0 { type := some "mcq" }).data.questions
        = some [TransformUtil.placeholderQuestion (none : Option String)]
      ∧ (TransformUtil.placeholderQuestion (none : Option String)).options.countP
          (fun o => o.isCorrect) = 1 :=
  transformForExport_mcq_placeholder.1 0 { type := some "mcq" } rfl rfl rfl (Or.inl rfl)
